import Mathlib

/-!
Verification of the `stan::io::reader` template class (src/stan/io/reader.hpp).

The reader borrows two sequences (real scalars, integers) and holds two
cursors `pos` and `int_pos`.  Every public accessor is modelled as a state
transformer `Reader T → Except Err α × Reader T`: the final state is returned
on both the success and the failure path, because in the C++ code an exception
leaves the already-advanced cursors in place.

External collaborators of the reader (the transform library and the
validation library of stan::math) are passed in as function parameters:
the reader only delegates to them, so a claim about the reader holds for
every choice of those functions.  Out-of-range buffer accesses (which are
undefined behaviour in the C++) are modelled as reading the junk value `0`.
-/

namespace StanIO

/-- Error taxonomy of the reader: `bufferExhausted` for the "no more
scalars/integers to read" runtime errors, `invalidShape` for the
`std::invalid_argument` thrown on zero-size unit vectors and simplexes,
`boundInconsistent` for "lower bound must be less than or equal to ub",
`rangeViolation` for a consumed integer outside its declared bounds, and
`validationError` for a failure of an external validity predicate. -/
inductive Err where
  | bufferExhausted
  | invalidShape
  | boundInconsistent
  | rangeViolation
  | validationError
deriving DecidableEq, Repr

/-- The reader state: borrowed real data `data_r`, borrowed integer data
`data_i`, scalar cursor `pos` and integer cursor `int_pos`
(fields `data_r_`, `data_i_`, `pos_`, `int_pos_` of the C++ class). -/
structure Reader (T : Type) where
  data_r : List T
  data_i : List Int
  pos : Nat
  int_pos : Nat
deriving Repr

/-- A reader operation: consumes state, produces a result or an error,
and in either case the updated state. -/
abbrev ReaderM (T : Type) (α : Type) : Type :=
  Reader T → Except Err α × Reader T

variable {T : Type} [AddMonoid T] {α β : Type}

/-- Advance the scalar cursor by `m` (the cursor action of
`scalar_ptr_increment`). -/
def advanceR (m : Nat) (r : Reader T) : Reader T :=
  { r with pos := r.pos + m }

/-- Advance the integer cursor by `m` (the cursor action of
`int_ptr_increment`). -/
def advanceI (m : Nat) (r : Reader T) : Reader T :=
  { r with int_pos := r.int_pos + m }

/-- `data_r_[i]`; out-of-range access is undefined behaviour in the C++
and is modelled as the junk value `0`. -/
def readR (r : Reader T) (i : Nat) : T :=
  r.data_r.getD i 0

/-- `data_i_[i]`; junk `0` when out of range. -/
def readI (r : Reader T) (i : Nat) : Int :=
  r.data_i.getD i 0

/-- Monadic return: value plus unchanged state. -/
def pureR (a : α) : ReaderM T α := fun r => (Except.ok a, r)

/-- Throwing an exception: the state (cursor positions) is kept. -/
def throwR (e : Err) : ReaderM T α := fun r => (Except.error e, r)

/-- Sequencing: run `x`; on success feed the value to `f`, on error
propagate the error together with the state reached so far. -/
def bindR (x : ReaderM T α) (f : α → ReaderM T β) : ReaderM T β := fun r =>
  match x r with
  | (Except.ok a, r1) => f a r1
  | (Except.error e, r1) => (Except.error e, r1)

/-- `available()`: scalars remaining. -/
def available (r : Reader T) : Nat := r.data_r.length - r.pos

/-- `available_i()`: integers remaining. -/
def available_i (r : Reader T) : Nat := r.data_i.length - r.int_pos

/-- `scalar_ptr_increment(m)`: unchecked — returns the value at the current
position and advances `pos` by `m`, with no exhaustion check. -/
def scalar_ptr_increment (m : Nat) : ReaderM T T := fun r =>
  (Except.ok (readR r r.pos), advanceR m r)

/-- `integer()`: checks `int_pos_ >= data_i_.size()` first; on exhaustion
throws with the cursor unchanged, otherwise returns `data_i_[int_pos_++]`. -/
def integer : ReaderM T Int := fun r =>
  if r.int_pos ≥ r.data_i.length then (Except.error Err.bufferExhausted, r)
  else (Except.ok (readI r r.int_pos), advanceI 1 r)

/-- `integer_constrain()`: same as `integer()`. -/
def integer_constrain : ReaderM T Int := integer

/-- `scalar()`: checks `pos_ >= data_r_.size()` first; on exhaustion throws
with the cursor unchanged, otherwise returns `data_r_[pos_++]`. -/
def scalar : ReaderM T T := fun r =>
  if r.pos ≥ r.data_r.length then (Except.error Err.bufferExhausted, r)
  else (Except.ok (readR r r.pos), advanceR 1 r)

/-- `scalar_constrain()`: same as `scalar()`. -/
def scalar_constrain : ReaderM T T := scalar

/-- `std_vector(m)`: `m = 0` returns an empty vector without touching the
cursor; otherwise copies the next `m` scalars (unchecked) and adds `m`
to `pos_`. -/
def std_vector (m : Nat) : ReaderM T (List T) := fun r =>
  if m = 0 then (Except.ok [], r)
  else (Except.ok ((List.range m).map fun t => readR r (r.pos + t)),
        advanceR m r)

/-- `vector(m)`: `m = 0` returns an empty vector without touching the cursor;
otherwise maps the next `m` scalars through `scalar_ptr_increment(m)`
(unchecked bulk advance). -/
def vector (m : Nat) : ReaderM T (List T) := fun r =>
  if m = 0 then (Except.ok [], r)
  else (Except.ok ((List.range m).map fun t => readR r (r.pos + t)),
        advanceR m r)

/-- `vector_constrain(m)`: delegates to `vector(m)`. -/
def vector_constrain (m : Nat) : ReaderM T (List T) := vector m

/-- `row_vector(m)`: same consumption as `vector(m)`. -/
def row_vector (m : Nat) : ReaderM T (List T) := fun r =>
  if m = 0 then (Except.ok [], r)
  else (Except.ok ((List.range m).map fun t => readR r (r.pos + t)),
        advanceR m r)

/-- `row_vector_constrain(m)`: delegates to `row_vector(m)`. -/
def row_vector_constrain (m : Nat) : ReaderM T (List T) := row_vector m

/-- `matrix(n, m)`: if `m == 0 || n == 0` return the empty matrix without
touching the cursor; otherwise an Eigen column-major `Map` over the next
`n*m` scalars (unchecked bulk advance by `n*m`).  The result is the list of
`m` columns, each holding `n` consecutive scalars, so entry `(i, j)` is the
`(j*n + i)`-th consumed scalar. -/
def matrix (n m : Nat) : ReaderM T (List (List T)) := fun r =>
  if m = 0 ∨ n = 0 then
    (Except.ok ((List.range m).map fun _ => ([] : List T)), r)
  else
    (Except.ok ((List.range m).map fun j =>
        (List.range n).map fun i => readR r (r.pos + (j * n + i))),
     advanceR (n * m) r)

/-- `matrix_constrain(n, m)`: delegates to `matrix(n, m)`. -/
def matrix_constrain (n m : Nat) : ReaderM T (List (List T)) := matrix n m

/-- Entry `(i, j)` of a matrix represented as a list of columns. -/
def matEntry (cols : List (List T)) (i j : Nat) : T :=
  (cols.getD j []).getD i 0

/-- An `Eigen::Triplet<T>`: row index, column index, value.  Its default
constructor produces `(0, 0, T(0))`. -/
structure Triplet (T : Type) where
  row : Nat
  col : Nat
  value : T
deriving DecidableEq, Repr

/-- The loop body shared by the sparse-matrix accessors: for each index `i`
of the index list, run the element-level read `f` and record the triplet
`(vec_r[i], vec_c[i], value)`, in sequence order. -/
def sparseLoop (f : ReaderM T T) (vec_r vec_c : List Nat) :
    List Nat → ReaderM T (List (Triplet T))
  | [] => pureR []
  | i :: is =>
    bindR f fun x =>
      bindR (sparseLoop f vec_r vec_c is) fun rest =>
        pureR (Triplet.mk (vec_r.getD i 0) (vec_c.getD i 0) x :: rest)

/-- `sparse_matrix(vec_r, vec_c, n, m)`: if `m == 0 || n == 0` return the
empty matrix without touching the cursor; otherwise one unchecked
`scalar_ptr_increment(1)` read per listed nonzero.  The C++ builds
`triplet_list` pre-sized with `vec_r.size()` default-constructed triplets
and then `emplace_back`s the real ones, so the list handed to
`setFromTriplets` is the defaults followed by the real triplets. -/
def sparse_matrix (vec_r vec_c : List Nat) (n m : Nat) :
    ReaderM T (List (Triplet T)) := fun r =>
  if m = 0 ∨ n = 0 then (Except.ok [], r)
  else
    match sparseLoop (scalar_ptr_increment 1) vec_r vec_c
        (List.range vec_r.length) r with
    | (Except.ok l, r1) =>
        (Except.ok (List.replicate vec_r.length (Triplet.mk 0 0 0) ++ l), r1)
    | (Except.error e, r1) => (Except.error e, r1)

/-- `sparse_matrix_constrain(vec_r, vec_c, n, m)`: delegates to
`sparse_matrix`. -/
def sparse_matrix_constrain (vec_r vec_c : List Nat) (n m : Nat) :
    ReaderM T (List (Triplet T)) :=
  sparse_matrix vec_r vec_c n m

/-- Entry `(i, j)` of the sparse matrix assembled by `setFromTriplets`:
the sum of the values of all triplets at that coordinate. -/
def spEntry (trips : List (Triplet T)) (i j : Nat) : T :=
  ((trips.filter fun t => t.row == i && t.col == j).map Triplet.value).sum

/-- `integer_lb(lb)`: consume the next integer first, then check
`i >= lb`; throws after the cursor has advanced. -/
def integer_lb (lb : Int) : ReaderM T Int :=
  bindR integer fun i =>
    if lb ≤ i then pureR i else throwR Err.rangeViolation

/-- `integer_lb_constrain(lb)`: delegates to `integer_lb`. -/
def integer_lb_constrain (lb : Int) : ReaderM T Int := integer_lb lb

/-- `integer_ub(ub)`: consume the next integer first, then check
`i <= ub`. -/
def integer_ub (ub : Int) : ReaderM T Int :=
  bindR integer fun i =>
    if i ≤ ub then pureR i else throwR Err.rangeViolation

/-- `integer_ub_constrain(ub)`: delegates to `integer_ub`. -/
def integer_ub_constrain (ub : Int) : ReaderM T Int := integer_ub ub

/-- `integer_lub(lb, ub)`: reads the integer first "to make position
deterministic", then checks `lb <= ub` (bound consistency, a distinct
error), then the lower-bound check, then the upper-bound check. -/
def integer_lub (lb ub : Int) : ReaderM T Int :=
  bindR integer fun i =>
    if lb > ub then throwR Err.boundInconsistent
    else if ¬ lb ≤ i then throwR Err.rangeViolation
    else if ¬ i ≤ ub then throwR Err.rangeViolation
    else pureR i

/-- `integer_lub_constrain(lb, ub)`: delegates to `integer_lub`. -/
def integer_lub_constrain (lb ub : Int) : ReaderM T Int := integer_lub lb ub

/-- `scalar_pos()`: read a scalar, then delegate to the external
`check_positive` (modelled as the predicate `chk`). -/
def scalar_pos (chk : T → Bool) : ReaderM T T :=
  bindR scalar fun x =>
    if chk x then pureR x else throwR Err.validationError

/-- `scalar_pos_constrain()`: read a scalar and hand it to the external
`positive_constrain` transform (modelled as `tf`). -/
def scalar_pos_constrain (tf : T → T) : ReaderM T T :=
  bindR scalar fun x => pureR (tf x)

/-- `scalar_lb(lb)`: read a scalar, then the external
`check_greater_or_equal` with the bound (modelled as `chk`). -/
def scalar_lb (chk : T → Bool) : ReaderM T T :=
  bindR scalar fun x =>
    if chk x then pureR x else throwR Err.validationError

/-- `scalar_lb_constrain(lb)`: read a scalar and hand it to the external
`lb_constrain` transform. -/
def scalar_lb_constrain (tf : T → T) : ReaderM T T :=
  bindR scalar fun x => pureR (tf x)

/-- `scalar_ub(ub)`: read a scalar, then the external
`check_less_or_equal`. -/
def scalar_ub (chk : T → Bool) : ReaderM T T :=
  bindR scalar fun x =>
    if chk x then pureR x else throwR Err.validationError

/-- `scalar_ub_constrain(ub)`: read a scalar and hand it to the external
`ub_constrain` transform. -/
def scalar_ub_constrain (tf : T → T) : ReaderM T T :=
  bindR scalar fun x => pureR (tf x)

/-- `scalar_lub(lb, ub)`: read a scalar, then the external
`check_bounded`. -/
def scalar_lub (chk : T → Bool) : ReaderM T T :=
  bindR scalar fun x =>
    if chk x then pureR x else throwR Err.validationError

/-- `scalar_lub_constrain(lb, ub)`: read a scalar and hand it to the
external `lub_constrain` transform. -/
def scalar_lub_constrain (tf : T → T) : ReaderM T T :=
  bindR scalar fun x => pureR (tf x)

/-- `prob()`: read a scalar, then the external `check_bounded(x, 0, 1)`. -/
def prob (chk : T → Bool) : ReaderM T T :=
  bindR scalar fun x =>
    if chk x then pureR x else throwR Err.validationError

/-- `prob_constrain()`: read a scalar and hand it to the external
`prob_constrain` transform. -/
def prob_constrain (tf : T → T) : ReaderM T T :=
  bindR scalar fun x => pureR (tf x)

/-- `corr()`: read a scalar, then the external `check_bounded(x, -1, 1)`. -/
def corr (chk : T → Bool) : ReaderM T T :=
  bindR scalar fun x =>
    if chk x then pureR x else throwR Err.validationError

/-- `corr_constrain()`: read a scalar and hand it to the external
`corr_constrain` transform. -/
def corr_constrain (tf : T → T) : ReaderM T T :=
  bindR scalar fun x => pureR (tf x)

/-- `scalar_offset_multiplier(offset, multiplier)`: reads a scalar and
returns it unchanged; the offset and multiplier are accepted but never
used (the C++ body is `T x(this->scalar()); return x;`). -/
def scalar_offset_multiplier (offset multiplier : T) : ReaderM T T :=
  bindR scalar fun x => pureR x

/-- Modelled from the spec: the external transform-library function
`stan::math::offset_multiplier_constrain` is not part of this repository;
its contract, quoted by the reader's documentation, is the linear
transform `f(x) = mu + sigma * x` where `mu` is the offset and `sigma`
the multiplier. -/
def offset_multiplier_constrain [Mul T] (x offset multiplier : T) : T :=
  offset + multiplier * x

/-- `scalar_offset_multiplier_constrain(offset, multiplier)`: reads a
scalar and hands it to the external `offset_multiplier_constrain`
transform. -/
def scalar_offset_multiplier_constrain [Mul T] (offset multiplier : T) :
    ReaderM T T :=
  bindR scalar fun x => pureR (offset_multiplier_constrain x offset multiplier)

/-- `unit_vector(k)`: `k == 0` throws `std::invalid_argument` before any
read; otherwise read `vector(k)` and delegate to the external
`check_unit_vector`. -/
def unit_vector (chk : List T → Bool) (k : Nat) : ReaderM T (List T) :=
  if k = 0 then throwR Err.invalidShape
  else bindR (vector k) fun theta =>
    if chk theta then pureR theta else throwR Err.validationError

/-- `unit_vector_constrain(k)`: `k == 0` throws `std::invalid_argument`
before any read; otherwise hand `vector(k)` to the external
`unit_vector_constrain` transform. -/
def unit_vector_constrain (tf : List T → List T) (k : Nat) :
    ReaderM T (List T) :=
  if k = 0 then throwR Err.invalidShape
  else bindR (vector k) fun y => pureR (tf y)

/-- `simplex(k)`: `k == 0` throws `std::invalid_argument` before any read;
otherwise read `vector(k)` and delegate to the external `check_simplex`. -/
def simplex (chk : List T → Bool) (k : Nat) : ReaderM T (List T) :=
  if k = 0 then throwR Err.invalidShape
  else bindR (vector k) fun theta =>
    if chk theta then pureR theta else throwR Err.validationError

/-- `simplex_constrain(k)`: `k == 0` throws `std::invalid_argument` before
any read; otherwise hand `vector(k - 1)` to the external
`simplex_constrain` transform. -/
def simplex_constrain (tf : List T → List T) (k : Nat) :
    ReaderM T (List T) :=
  if k = 0 then throwR Err.invalidShape
  else bindR (vector (k - 1)) fun y => pureR (tf y)

/-- `ordered(k)`: read `vector(k)` and delegate to the external
`check_ordered`. -/
def ordered (chk : List T → Bool) (k : Nat) : ReaderM T (List T) :=
  bindR (vector k) fun x =>
    if chk x then pureR x else throwR Err.validationError

/-- `ordered_constrain(k)`: hand `vector(k)` to the external
`ordered_constrain` transform. -/
def ordered_constrain (tf : List T → List T) (k : Nat) : ReaderM T (List T) :=
  bindR (vector k) fun y => pureR (tf y)

/-- `positive_ordered(k)`: read `vector(k)` and delegate to the external
`check_positive_ordered`. -/
def positive_ordered (chk : List T → Bool) (k : Nat) : ReaderM T (List T) :=
  bindR (vector k) fun x =>
    if chk x then pureR x else throwR Err.validationError

/-- `positive_ordered_constrain(k)`: hand `vector(k)` to the external
`positive_ordered_constrain` transform. -/
def positive_ordered_constrain (tf : List T → List T) (k : Nat) :
    ReaderM T (List T) :=
  bindR (vector k) fun y => pureR (tf y)

/-- `cholesky_factor_cov(n, m)`: read `matrix(n, m)` and delegate to the
external `check_cholesky_factor`. -/
def cholesky_factor_cov (chk : List (List T) → Bool) (n m : Nat) :
    ReaderM T (List (List T)) :=
  bindR (matrix n m) fun y =>
    if chk y then pureR y else throwR Err.validationError

/-- `cholesky_factor_cov_constrain(n, m)`: hand
`vector((m * (m + 1)) / 2 + (n - m) * m)` to the external
`cholesky_factor_constrain` transform. -/
def cholesky_factor_cov_constrain (tf : List T → List (List T)) (n m : Nat) :
    ReaderM T (List (List T)) :=
  bindR (vector (m * (m + 1) / 2 + (n - m) * m)) fun y => pureR (tf y)

/-- `cholesky_factor_corr(K)`: read `matrix(K, K)` and delegate to the
external `check_cholesky_factor_corr`. -/
def cholesky_factor_corr (chk : List (List T) → Bool) (K : Nat) :
    ReaderM T (List (List T)) :=
  bindR (matrix K K) fun y =>
    if chk y then pureR y else throwR Err.validationError

/-- `cholesky_factor_corr_constrain(K)`: hand `vector((K * (K - 1)) / 2)`
to the external `cholesky_corr_constrain` transform. -/
def cholesky_factor_corr_constrain (tf : List T → List (List T)) (K : Nat) :
    ReaderM T (List (List T)) :=
  bindR (vector (K * (K - 1) / 2)) fun y => pureR (tf y)

/-- `cov_matrix(k)`: read `matrix(k, k)` and delegate to the external
`check_cov_matrix`. -/
def cov_matrix (chk : List (List T) → Bool) (k : Nat) :
    ReaderM T (List (List T)) :=
  bindR (matrix k k) fun y =>
    if chk y then pureR y else throwR Err.validationError

/-- `cov_matrix_constrain(k)`: hand `vector(k + (k * (k - 1)) / 2)` to the
external `cov_matrix_constrain` transform. -/
def cov_matrix_constrain (tf : List T → List (List T)) (k : Nat) :
    ReaderM T (List (List T)) :=
  bindR (vector (k + k * (k - 1) / 2)) fun y => pureR (tf y)

/-- `corr_matrix(k)`: read `matrix(k, k)` and delegate to the external
`check_corr_matrix`. -/
def corr_matrix (chk : List (List T) → Bool) (k : Nat) :
    ReaderM T (List (List T)) :=
  bindR (matrix k k) fun x =>
    if chk x then pureR x else throwR Err.validationError

/-- `corr_matrix_constrain(k)`: hand `vector((k * (k - 1)) / 2)` to the
external `corr_matrix_constrain` transform. -/
def corr_matrix_constrain (tf : List T → List (List T)) (k : Nat) :
    ReaderM T (List (List T)) :=
  bindR (vector (k * (k - 1) / 2)) fun y => pureR (tf y)

/-- The `for (i = 0; i < m; ++i) v(i) = <element read>;` loop shared by the
batch vector accessors: `m` sequential element-level reads. -/
def replicateR (f : ReaderM T T) : Nat → ReaderM T (List T)
  | 0 => pureR []
  | Nat.succ k =>
    bindR f fun x =>
      bindR (replicateR f k) fun xs => pureR (x :: xs)

/-- The `for (j…) for (i…) v(i, j) = <element read>;` double loop shared by
the batch matrix accessors: the outer loop is over the `m` columns, the
inner loop over the `n` rows, one element-level read each. -/
def matrixR (f : ReaderM T T) (n : Nat) : Nat → ReaderM T (List (List T))
  | 0 => pureR []
  | Nat.succ k =>
    bindR (replicateR f n) fun c =>
      bindR (matrixR f n k) fun cs => pureR (c :: cs)

/-- `vector_lb(lb, m)`: `m` iterated `scalar_lb` reads. -/
def vector_lb (chk : T → Bool) (m : Nat) : ReaderM T (List T) :=
  replicateR (scalar_lb chk) m

/-- `vector_lb_constrain(lb, m)`: `m` iterated `scalar_lb_constrain`
reads. -/
def vector_lb_constrain (tf : T → T) (m : Nat) : ReaderM T (List T) :=
  replicateR (scalar_lb_constrain tf) m

/-- `row_vector_lb(lb, m)`: `m` iterated `scalar_lb` reads. -/
def row_vector_lb (chk : T → Bool) (m : Nat) : ReaderM T (List T) :=
  replicateR (scalar_lb chk) m

/-- `matrix_lb(lb, n, m)`: column-major double loop of `scalar_lb`. -/
def matrix_lb (chk : T → Bool) (n m : Nat) : ReaderM T (List (List T)) :=
  matrixR (scalar_lb chk) n m

/-- `matrix_lb_constrain(lb, n, m)`: column-major double loop of
`scalar_lb_constrain` — outer loop over columns, inner over rows. -/
def matrix_lb_constrain (tf : T → T) (n m : Nat) :
    ReaderM T (List (List T)) :=
  matrixR (scalar_lb_constrain tf) n m

/-- `matrix_offset_multiplier_constrain(offset, multiplier, n, m)`:
column-major double loop of `scalar_offset_multiplier_constrain`. -/
def matrix_offset_multiplier_constrain [Mul T] (offset multiplier : T)
    (n m : Nat) : ReaderM T (List (List T)) :=
  matrixR (scalar_offset_multiplier_constrain offset multiplier) n m

/-- `sparse_matrix_lb(lb, vec_r, vec_c, n, m)`: guard on zero dimensions,
then one `scalar_lb` read per listed nonzero.  This overload reserves and
`push_back`s, so no default-constructed triplets are prepended. -/
def sparse_matrix_lb (chk : T → Bool) (vec_r vec_c : List Nat) (n m : Nat) :
    ReaderM T (List (Triplet T)) := fun r =>
  if m = 0 ∨ n = 0 then (Except.ok [], r)
  else sparseLoop (scalar_lb chk) vec_r vec_c (List.range vec_r.length) r

/-- `sparse_matrix_lb_constrain(lb, vec_r, vec_c, n, m)`: guard on zero
dimensions, then one `scalar_lb_constrain` read per listed nonzero; the
pre-sized `triplet_list` plus `emplace_back` leaves `vec_r.size()`
default triplets in front. -/
def sparse_matrix_lb_constrain (tf : T → T) (vec_r vec_c : List Nat)
    (n m : Nat) : ReaderM T (List (Triplet T)) := fun r =>
  if m = 0 ∨ n = 0 then (Except.ok [], r)
  else
    match sparseLoop (scalar_lb_constrain tf) vec_r vec_c
        (List.range vec_r.length) r with
    | (Except.ok l, r1) =>
        (Except.ok (List.replicate vec_r.length (Triplet.mk 0 0 0) ++ l), r1)
    | (Except.error e, r1) => (Except.error e, r1)

/-- `sparse_matrix_offset_multiplier(offset, multiplier, vec_r, vec_c, n,
m)`: guard on zero dimensions, then one `scalar_offset_multiplier` read
(raw value, no transform) per listed nonzero, with the default triplets in
front. -/
def sparse_matrix_offset_multiplier (offset multiplier : T)
    (vec_r vec_c : List Nat) (n m : Nat) :
    ReaderM T (List (Triplet T)) := fun r =>
  if m = 0 ∨ n = 0 then (Except.ok [], r)
  else
    match sparseLoop (scalar_offset_multiplier offset multiplier) vec_r vec_c
        (List.range vec_r.length) r with
    | (Except.ok l, r1) =>
        (Except.ok (List.replicate vec_r.length (Triplet.mk 0 0 0) ++ l), r1)
    | (Except.error e, r1) => (Except.error e, r1)

/-- `sparse_matrix_offset_multiplier_constrain(offset, multiplier, vec_r,
vec_c, n, m)`: the body loops `this->scalar_offset_multiplier(offset,
multiplier)` — the PLAIN accessor, which returns the raw scalar and applies
no transform — even though this is the `_constrain` overload and its own
documentation states that `f(x) = mu + sigma * x` is applied. -/
def sparse_matrix_offset_multiplier_constrain (offset multiplier : T)
    (vec_r vec_c : List Nat) (n m : Nat) :
    ReaderM T (List (Triplet T)) := fun r =>
  if m = 0 ∨ n = 0 then (Except.ok [], r)
  else
    match sparseLoop (scalar_offset_multiplier offset multiplier) vec_r vec_c
        (List.range vec_r.length) r with
    | (Except.ok l, r1) =>
        (Except.ok (List.replicate vec_r.length (Triplet.mk 0 0 0) ++ l), r1)
    | (Except.error e, r1) => (Except.error e, r1)

/-- A reader operation never moves either cursor backwards, on the success
path or on the failure path. -/
def CursorMono (f : ReaderM T α) : Prop :=
  ∀ r, r.pos ≤ ((f r).2).pos ∧ r.int_pos ≤ ((f r).2).int_pos

/-- One constructor per modelled public operation of the reader, with its
call-site parameters (shape request, bounds, and the external check or
transform being delegated to). -/
inductive Op (T : Type) where
  | scalar
  | scalar_constrain
  | integer
  | integer_constrain
  | std_vector (m : Nat)
  | vector (m : Nat)
  | vector_constrain (m : Nat)
  | row_vector (m : Nat)
  | row_vector_constrain (m : Nat)
  | matrix (n m : Nat)
  | matrix_constrain (n m : Nat)
  | sparse_matrix (vr vc : List Nat) (n m : Nat)
  | sparse_matrix_constrain (vr vc : List Nat) (n m : Nat)
  | integer_lb (lb : Int)
  | integer_lb_constrain (lb : Int)
  | integer_ub (ub : Int)
  | integer_ub_constrain (ub : Int)
  | integer_lub (lb ub : Int)
  | integer_lub_constrain (lb ub : Int)
  | scalar_pos (chk : T → Bool)
  | scalar_pos_constrain (tf : T → T)
  | scalar_lb (chk : T → Bool)
  | scalar_lb_constrain (tf : T → T)
  | scalar_ub (chk : T → Bool)
  | scalar_ub_constrain (tf : T → T)
  | scalar_lub (chk : T → Bool)
  | scalar_lub_constrain (tf : T → T)
  | prob (chk : T → Bool)
  | prob_constrain (tf : T → T)
  | corr (chk : T → Bool)
  | corr_constrain (tf : T → T)
  | scalar_offset_multiplier (offset multiplier : T)
  | scalar_offset_multiplier_constrain (offset multiplier : T)
  | unit_vector (chk : List T → Bool) (k : Nat)
  | unit_vector_constrain (tf : List T → List T) (k : Nat)
  | simplex (chk : List T → Bool) (k : Nat)
  | simplex_constrain (tf : List T → List T) (k : Nat)
  | ordered (chk : List T → Bool) (k : Nat)
  | ordered_constrain (tf : List T → List T) (k : Nat)
  | positive_ordered (chk : List T → Bool) (k : Nat)
  | positive_ordered_constrain (tf : List T → List T) (k : Nat)
  | cholesky_factor_cov (chk : List (List T) → Bool) (n m : Nat)
  | cholesky_factor_cov_constrain (tf : List T → List (List T)) (n m : Nat)
  | cholesky_factor_corr (chk : List (List T) → Bool) (K : Nat)
  | cholesky_factor_corr_constrain (tf : List T → List (List T)) (K : Nat)
  | cov_matrix (chk : List (List T) → Bool) (k : Nat)
  | cov_matrix_constrain (tf : List T → List (List T)) (k : Nat)
  | corr_matrix (chk : List (List T) → Bool) (k : Nat)
  | corr_matrix_constrain (tf : List T → List (List T)) (k : Nat)
  | vector_lb (chk : T → Bool) (m : Nat)
  | vector_lb_constrain (tf : T → T) (m : Nat)
  | row_vector_lb (chk : T → Bool) (m : Nat)
  | matrix_lb (chk : T → Bool) (n m : Nat)
  | matrix_lb_constrain (tf : T → T) (n m : Nat)
  | matrix_offset_multiplier_constrain (offset multiplier : T) (n m : Nat)
  | sparse_matrix_lb (chk : T → Bool) (vr vc : List Nat) (n m : Nat)
  | sparse_matrix_lb_constrain (tf : T → T) (vr vc : List Nat) (n m : Nat)
  | sparse_matrix_offset_multiplier (offset multiplier : T)
      (vr vc : List Nat) (n m : Nat)
  | sparse_matrix_offset_multiplier_constrain (offset multiplier : T)
      (vr vc : List Nat) (n m : Nat)

/-- The state reached by one call of the given operation (the result value
is discarded; on an exception the state is the one left behind by the
throwing call). -/
def runOp [Mul T] : Op T → Reader T → Reader T
  | Op.scalar, r => (scalar r).2
  | Op.scalar_constrain, r => (scalar_constrain r).2
  | Op.integer, r => (integer (T := T) r).2
  | Op.integer_constrain, r => (integer_constrain (T := T) r).2
  | Op.std_vector m, r => ((std_vector m) r).2
  | Op.vector m, r => ((vector m) r).2
  | Op.vector_constrain m, r => ((vector_constrain m) r).2
  | Op.row_vector m, r => ((row_vector m) r).2
  | Op.row_vector_constrain m, r => ((row_vector_constrain m) r).2
  | Op.matrix n m, r => ((matrix n m) r).2
  | Op.matrix_constrain n m, r => ((matrix_constrain n m) r).2
  | Op.sparse_matrix vr vc n m, r => ((sparse_matrix vr vc n m) r).2
  | Op.sparse_matrix_constrain vr vc n m, r =>
      ((sparse_matrix_constrain vr vc n m) r).2
  | Op.integer_lb lb, r => ((integer_lb (T := T) lb) r).2
  | Op.integer_lb_constrain lb, r => ((integer_lb_constrain (T := T) lb) r).2
  | Op.integer_ub ub, r => ((integer_ub (T := T) ub) r).2
  | Op.integer_ub_constrain ub, r => ((integer_ub_constrain (T := T) ub) r).2
  | Op.integer_lub lb ub, r => ((integer_lub (T := T) lb ub) r).2
  | Op.integer_lub_constrain lb ub, r =>
      ((integer_lub_constrain (T := T) lb ub) r).2
  | Op.scalar_pos chk, r => ((scalar_pos chk) r).2
  | Op.scalar_pos_constrain tf, r => ((scalar_pos_constrain tf) r).2
  | Op.scalar_lb chk, r => ((scalar_lb chk) r).2
  | Op.scalar_lb_constrain tf, r => ((scalar_lb_constrain tf) r).2
  | Op.scalar_ub chk, r => ((scalar_ub chk) r).2
  | Op.scalar_ub_constrain tf, r => ((scalar_ub_constrain tf) r).2
  | Op.scalar_lub chk, r => ((scalar_lub chk) r).2
  | Op.scalar_lub_constrain tf, r => ((scalar_lub_constrain tf) r).2
  | Op.prob chk, r => ((prob chk) r).2
  | Op.prob_constrain tf, r => ((prob_constrain tf) r).2
  | Op.corr chk, r => ((corr chk) r).2
  | Op.corr_constrain tf, r => ((corr_constrain tf) r).2
  | Op.scalar_offset_multiplier offset multiplier, r =>
      ((scalar_offset_multiplier offset multiplier) r).2
  | Op.scalar_offset_multiplier_constrain offset multiplier, r =>
      ((scalar_offset_multiplier_constrain offset multiplier) r).2
  | Op.unit_vector chk k, r => ((unit_vector chk k) r).2
  | Op.unit_vector_constrain tf k, r => ((unit_vector_constrain tf k) r).2
  | Op.simplex chk k, r => ((simplex chk k) r).2
  | Op.simplex_constrain tf k, r => ((simplex_constrain tf k) r).2
  | Op.ordered chk k, r => ((ordered chk k) r).2
  | Op.ordered_constrain tf k, r => ((ordered_constrain tf k) r).2
  | Op.positive_ordered chk k, r => ((positive_ordered chk k) r).2
  | Op.positive_ordered_constrain tf k, r =>
      ((positive_ordered_constrain tf k) r).2
  | Op.cholesky_factor_cov chk n m, r => ((cholesky_factor_cov chk n m) r).2
  | Op.cholesky_factor_cov_constrain tf n m, r =>
      ((cholesky_factor_cov_constrain tf n m) r).2
  | Op.cholesky_factor_corr chk K, r => ((cholesky_factor_corr chk K) r).2
  | Op.cholesky_factor_corr_constrain tf K, r =>
      ((cholesky_factor_corr_constrain tf K) r).2
  | Op.cov_matrix chk k, r => ((cov_matrix chk k) r).2
  | Op.cov_matrix_constrain tf k, r => ((cov_matrix_constrain tf k) r).2
  | Op.corr_matrix chk k, r => ((corr_matrix chk k) r).2
  | Op.corr_matrix_constrain tf k, r => ((corr_matrix_constrain tf k) r).2
  | Op.vector_lb chk m, r => ((vector_lb chk m) r).2
  | Op.vector_lb_constrain tf m, r => ((vector_lb_constrain tf m) r).2
  | Op.row_vector_lb chk m, r => ((row_vector_lb chk m) r).2
  | Op.matrix_lb chk n m, r => ((matrix_lb chk n m) r).2
  | Op.matrix_lb_constrain tf n m, r => ((matrix_lb_constrain tf n m) r).2
  | Op.matrix_offset_multiplier_constrain offset multiplier n m, r =>
      ((matrix_offset_multiplier_constrain offset multiplier n m) r).2
  | Op.sparse_matrix_lb chk vr vc n m, r =>
      ((sparse_matrix_lb chk vr vc n m) r).2
  | Op.sparse_matrix_lb_constrain tf vr vc n m, r =>
      ((sparse_matrix_lb_constrain tf vr vc n m) r).2
  | Op.sparse_matrix_offset_multiplier offset multiplier vr vc n m, r =>
      ((sparse_matrix_offset_multiplier offset multiplier vr vc n m) r).2
  | Op.sparse_matrix_offset_multiplier_constrain offset multiplier vr vc n m,
      r =>
      ((sparse_matrix_offset_multiplier_constrain offset multiplier
          vr vc n m) r).2

end StanIO

namespace StanIO

set_option linter.unusedSectionVars false

variable {T : Type} [AddMonoid T]

theorem advanceR_pos (m : Nat) (r : Reader T) :
    (advanceR m r).pos = r.pos + m := rfl

theorem advanceR_int_pos (m : Nat) (r : Reader T) :
    (advanceR m r).int_pos = r.int_pos := rfl

theorem advanceI_int_pos (m : Nat) (r : Reader T) :
    (advanceI m r).int_pos = r.int_pos + m := rfl

theorem advanceI_pos (m : Nat) (r : Reader T) :
    (advanceI m r).pos = r.pos := rfl

theorem getD_map_range {γ : Type} (f : Nat → γ) (d : γ) {j m : Nat}
    (h : j < m) : (((List.range m).map f).getD j d) = f j := by
  rw [List.getD_eq_getElem?_getD, List.getElem?_map, List.getElem?_range h]
  rfl

/-- C1: for `n ≥ 1`, `m ≥ 1` and enough data, `matrix(n, m)` succeeds,
consumes exactly `n*m` scalars (the scalar cursor advances from `pos` to
`pos + n*m`, the integer cursor is untouched), and the result is laid out
column-major: entry `(i, j)` equals the `(j*n + i)`-th consumed scalar,
i.e. `data_r[pos + j*n + i]`. -/
theorem matrix_column_major (n m : Nat) (r : Reader T)
    (hn : 1 ≤ n) (hm : 1 ≤ m) (hav : r.pos + n * m ≤ r.data_r.length) :
    ((matrix n m) r).2 = advanceR (n * m) r ∧
    (∃ cols, ((matrix n m) r).1 = Except.ok cols ∧
      ∀ i j, i < n → j < m →
        matEntry cols i j = readR r (r.pos + (j * n + i))) := by
  have hm0 : ¬ (m = 0 ∨ n = 0) := by omega
  constructor
  · simp [matrix, hm0]
  · refine ⟨(List.range m).map fun j =>
        (List.range n).map fun i => readR r (r.pos + (j * n + i)),
      by simp [matrix, hm0], ?_⟩
    intro i j hi hj
    simp only [matEntry]
    rw [getD_map_range _ _ hj, getD_map_range _ _ hi]

/-- Witness for C1: Scenario from the claim — scalars `1..6`,
`matrix(2, 3)`; cursor advances by 6 and entry `(i, j)` is scalar number
`j*2 + i`; in particular row 0 is `1, 3, 5` and column 0 is `1, 2`. -/
theorem matrix_column_major_witness :
    ((matrix 2 3) (Reader.mk [1, 2, 3, 4, 5, 6] [] 0 0)).2
        = advanceR (2 * 3) (Reader.mk ([1, 2, 3, 4, 5, 6] : List Int) [] 0 0) ∧
    (∃ cols, ((matrix 2 3)
        (Reader.mk ([1, 2, 3, 4, 5, 6] : List Int) [] 0 0)).1
          = Except.ok cols ∧
      ∀ i j, i < 2 → j < 3 →
        matEntry cols i j
          = readR (Reader.mk ([1, 2, 3, 4, 5, 6] : List Int) [] 0 0)
              (0 + (j * 2 + i))) :=
  matrix_column_major 2 3 (Reader.mk [1, 2, 3, 4, 5, 6] [] 0 0)
    (by decide) (by decide) (by decide)

/-- C3: `scalar()` and `integer()` are check-then-advance single-element
reads.  With the cursor strictly before the end, the call returns the
element at the cursor and the new state advances that cursor by exactly one
(the other cursor untouched); with the cursor at or past the end, the call
fails with `bufferExhausted` and the whole state — in particular the
cursor — is unchanged. -/
theorem scalar_integer_check_then_advance (r : Reader T) :
    (r.pos < r.data_r.length →
      scalar r = (Except.ok (readR r r.pos), advanceR 1 r)) ∧
    (r.data_r.length ≤ r.pos →
      scalar r = (Except.error Err.bufferExhausted, r)) ∧
    (r.int_pos < r.data_i.length →
      integer (T := T) r = (Except.ok (readI r r.int_pos), advanceI 1 r)) ∧
    (r.data_i.length ≤ r.int_pos →
      integer (T := T) r = (Except.error Err.bufferExhausted, r)) := by
  refine ⟨fun h => ?_, fun h => ?_, fun h => ?_, fun h => ?_⟩ <;>
    simp [scalar, integer] <;> omega

/-- Witness for C3: Scenario A — integers `[3, 5]`; the first read returns 3
and moves the cursor to 1, and on the analogous scalar side an exhausted
reader fails with `bufferExhausted` leaving the state untouched. -/
theorem scalar_integer_check_then_advance_witness :
    (integer (T := Int) (Reader.mk [] [3, 5] 0 0)
        = (Except.ok (readI (Reader.mk ([] : List Int) [3, 5] 0 0) 0),
           advanceI 1 (Reader.mk ([] : List Int) [3, 5] 0 0))) ∧
    (scalar (Reader.mk ([] : List Int) [3, 5] 0 0)
        = (Except.error Err.bufferExhausted,
           Reader.mk ([] : List Int) [3, 5] 0 0)) :=
  ⟨((scalar_integer_check_then_advance
      (Reader.mk ([] : List Int) [3, 5] 0 0)).2.2.1 (by decide)),
   ((scalar_integer_check_then_advance
      (Reader.mk ([] : List Int) [3, 5] 0 0)).2.1 (by decide))⟩

theorem vector_run (m : Nat) (r : Reader T) :
    vector m r
      = (Except.ok ((List.range m).map fun t => readR r (r.pos + t)),
         advanceR m r) := by
  by_cases h : m = 0
  · subst h; rfl
  · simp [vector, h]

theorem row_vector_run (m : Nat) (r : Reader T) :
    row_vector m r
      = (Except.ok ((List.range m).map fun t => readR r (r.pos + t)),
         advanceR m r) := by
  by_cases h : m = 0
  · subst h; rfl
  · simp [row_vector, h]

theorem std_vector_run (m : Nat) (r : Reader T) :
    std_vector m r
      = (Except.ok ((List.range m).map fun t => readR r (r.pos + t)),
         advanceR m r) := by
  by_cases h : m = 0
  · subst h; rfl
  · simp [std_vector, h]

theorem matrix_run (n m : Nat) (r : Reader T) :
    matrix n m r
      = (Except.ok ((List.range m).map fun j =>
          (List.range n).map fun i => readR r (r.pos + (j * n + i))),
         advanceR (n * m) r) := by
  by_cases h : m = 0 ∨ n = 0
  · rcases h with h | h
    · subst h; rfl
    · subst h
      simp [matrix, Nat.zero_mul, advanceR]
  · simp [matrix, h]

theorem check_state (c : Bool) (a : α) (e : Err) (r : Reader T) :
    ((if c then pureR a else throwR e) r).2 = r := by
  cases c <;> rfl

theorem readR_advanceR (m i : Nat) (r : Reader T) :
    readR (advanceR m r) i = readR r i := rfl

theorem advanceR_advanceR (a b : Nat) (r : Reader T) :
    advanceR b (advanceR a r) = advanceR (a + b) r := by
  simp [advanceR, Nat.add_assoc]

theorem sparseLoop_ptr_aux (vr vc : List Nat) :
    ∀ (k a : Nat) (r : Reader T),
      sparseLoop (scalar_ptr_increment 1) vr vc (List.range' a k) r
        = (Except.ok ((List.range k).map fun t =>
            Triplet.mk (vr.getD (a + t) 0) (vc.getD (a + t) 0)
              (readR r (r.pos + t))),
           advanceR k r) := by
  intro k
  induction k with
  | zero => intro a r; rfl
  | succ k ih =>
    intro a r
    rw [List.range'_succ]
    simp only [sparseLoop, bindR, scalar_ptr_increment]
    rw [ih (a + 1) (advanceR 1 r)]
    simp only [pureR, Prod.mk.injEq]
    constructor
    · apply congrArg
      apply List.ext_getElem
      · simp
      · intro t h1 h2
        cases t with
        | zero => simp
        | succ t =>
          simp only [List.getElem_cons_succ, List.getElem_map,
            List.getElem_range, readR_advanceR, advanceR_pos,
            Triplet.mk.injEq]
          have e1 : a + 1 + t = a + (t + 1) := by omega
          have e2 : r.pos + 1 + t = r.pos + (t + 1) := by omega
          exact ⟨by rw [e1], by rw [e1], by rw [e2]⟩
    · rw [advanceR_advanceR]
      rw [Nat.add_comm 1 k]

theorem sparseLoop_ptr_run (vr vc : List Nat) (len : Nat) (r : Reader T) :
    sparseLoop (scalar_ptr_increment 1) vr vc (List.range len) r
      = (Except.ok ((List.range len).map fun t =>
          Triplet.mk (vr.getD t 0) (vc.getD t 0) (readR r (r.pos + t))),
         advanceR len r) := by
  rw [List.range_eq_range']
  rw [sparseLoop_ptr_aux vr vc len 0 r]
  simp [← List.range_eq_range']

/-- C10: for the dense bulk extractors a zero requested dimension returns
an empty container of the requested shape, leaves the whole reader state
(both cursors) unchanged, and raises no error. -/
theorem zero_dim_reads_are_noops (r : Reader T) (n m : Nat)
    (h : m = 0 ∨ n = 0) :
    vector (T := T) 0 r = (Except.ok [], r) ∧
    row_vector (T := T) 0 r = (Except.ok [], r) ∧
    std_vector (T := T) 0 r = (Except.ok [], r) ∧
    matrix n m r
      = (Except.ok ((List.range m).map fun _ => ([] : List T)), r) := by
  refine ⟨rfl, rfl, rfl, ?_⟩
  simp only [matrix, if_pos h]

/-- Witness for C10: `matrix(0, 2)` on a nonempty buffer returns two empty
columns and does not move the cursor. -/
theorem zero_dim_reads_are_noops_witness :
    vector (T := Int) 0 (Reader.mk [4, 5] [] 3 7) = (Except.ok [], Reader.mk [4, 5] [] 3 7) ∧
    row_vector (T := Int) 0 (Reader.mk [4, 5] [] 3 7) = (Except.ok [], Reader.mk [4, 5] [] 3 7) ∧
    std_vector (T := Int) 0 (Reader.mk [4, 5] [] 3 7) = (Except.ok [], Reader.mk [4, 5] [] 3 7) ∧
    matrix 0 2 (Reader.mk ([4, 5] : List Int) [] 3 7)
      = (Except.ok ((List.range 2).map fun _ => ([] : List Int)),
         Reader.mk [4, 5] [] 3 7) :=
  zero_dim_reads_are_noops (Reader.mk [4, 5] [] 3 7) 0 2 (Or.inr rfl)

/-- C4: the bulk scalar reads with a strictly positive element count
advance the scalar cursor by the full requested count, unconditionally and
without any exhaustion check: they succeed for every state, including one
where the request exceeds `available()`, in which case the cursor ends up
strictly past the end of the data (the single-scalar accessors, by
contrast, check first — see the `scalar`/`integer` theorem). -/
theorem bulk_reads_unchecked (r : Reader T) (n m : Nat) (vr vc : List Nat)
    (hn : 0 < n) (hm : 0 < m) :
    ((vector m r).2 = advanceR m r ∧
      ∃ v, (vector m r).1 = Except.ok v) ∧
    ((row_vector m r).2 = advanceR m r ∧
      ∃ v, (row_vector m r).1 = Except.ok v) ∧
    ((std_vector m r).2 = advanceR m r ∧
      ∃ v, (std_vector m r).1 = Except.ok v) ∧
    ((matrix n m r).2 = advanceR (n * m) r ∧
      ∃ v, (matrix n m r).1 = Except.ok v) ∧
    ((sparse_matrix vr vc n m r).2 = advanceR vr.length r ∧
      ∃ v, (sparse_matrix vr vc n m r).1 = Except.ok v) ∧
    (available r < m → r.data_r.length < (vector m r).2.pos) := by
  have hg : ¬ (m = 0 ∨ n = 0) := by omega
  have hsp : sparse_matrix vr vc n m r
      = (Except.ok (List.replicate vr.length (Triplet.mk 0 0 0) ++
          ((List.range vr.length).map fun t =>
            Triplet.mk (vr.getD t 0) (vc.getD t 0) (readR r (r.pos + t)))),
         advanceR vr.length r) := by
    simp only [sparse_matrix, if_neg hg, sparseLoop_ptr_run]
  refine ⟨⟨by rw [vector_run], ⟨_, by rw [vector_run]⟩⟩,
    ⟨by rw [row_vector_run], ⟨_, by rw [row_vector_run]⟩⟩,
    ⟨by rw [std_vector_run], ⟨_, by rw [std_vector_run]⟩⟩,
    ⟨by rw [matrix_run], ⟨_, by rw [matrix_run]⟩⟩,
    ⟨by rw [hsp], ⟨_, by rw [hsp]⟩⟩, ?_⟩
  intro hav
  simp only [vector_run, advanceR, available] at hav ⊢
  omega

/-- Witness for C4: scalars `[1]` (one available); `vector(2)` raises no
error and leaves the scalar cursor at 2, strictly past the end of the
data. -/
theorem bulk_reads_unchecked_witness :
    (vector (T := Int) 2 (Reader.mk [1] [] 0 0)).2
        = advanceR 2 (Reader.mk ([1] : List Int) [] 0 0) ∧
    (Reader.mk ([1] : List Int) [] 0 0).data_r.length
        < ((vector (T := Int) 2 (Reader.mk [1] [] 0 0)).2).pos :=
  ⟨(bulk_reads_unchecked (Reader.mk [1] [] 0 0) 1 2 [0] [0]
      (by decide) (by decide)).1.1,
   (bulk_reads_unchecked (Reader.mk [1] [] 0 0) 1 2 [0] [0]
      (by decide) (by decide)).2.2.2.2.2 (by decide)⟩

/-- C6: `unit_vector(0)`, `unit_vector_constrain(0)`, `simplex(0)` and
`simplex_constrain(0)` fail with the invalid-shape error before any
consumption: the returned state is the input state, both cursors
untouched, for every data buffer and every external check/transform. -/
theorem zero_size_fails_before_consumption (chk : List T → Bool)
    (tf : List T → List T) (r : Reader T) :
    unit_vector chk 0 r = (Except.error Err.invalidShape, r) ∧
    unit_vector_constrain tf 0 r = (Except.error Err.invalidShape, r) ∧
    simplex chk 0 r = (Except.error Err.invalidShape, r) ∧
    simplex_constrain tf 0 r = (Except.error Err.invalidShape, r) :=
  ⟨rfl, rfl, rfl, rfl⟩

/-- C5: the integer bound accessors consume first and validate second.
With an integer available, `integer_lub(lb, ub)` always advances the
integer cursor by exactly one; if `lb > ub` it fails with the
bound-consistency error (distinct from the range-violation error), checked
after consumption and before the range checks; if `lb <= ub` and the
consumed integer is outside `[lb, ub]` it fails with a range violation
while the cursor stays advanced; `integer_lb` and `integer_ub` likewise
advance the cursor whatever the outcome of their check. -/
theorem integer_bounds_consume_first (r : Reader T) (lb ub : Int)
    (h : r.int_pos < r.data_i.length) :
    ((integer_lub (T := T) lb ub) r).2 = advanceI 1 r ∧
    (ub < lb →
      ((integer_lub (T := T) lb ub) r).1
        = Except.error Err.boundInconsistent) ∧
    (lb ≤ ub → (readI r r.int_pos < lb ∨ ub < readI r r.int_pos) →
      ((integer_lub (T := T) lb ub) r).1
        = Except.error Err.rangeViolation) ∧
    (lb ≤ ub → lb ≤ readI r r.int_pos → readI r r.int_pos ≤ ub →
      ((integer_lub (T := T) lb ub) r).1
        = Except.ok (readI r r.int_pos)) ∧
    Err.boundInconsistent ≠ Err.rangeViolation ∧
    ((integer_lb (T := T) lb) r).2 = advanceI 1 r ∧
    ((integer_ub (T := T) ub) r).2 = advanceI 1 r := by
  have hint : integer (T := T) r
      = (Except.ok (readI r r.int_pos), advanceI 1 r) := by
    unfold integer
    rw [if_neg (by omega)]
  refine ⟨?_, ?_, ?_, ?_, by decide, ?_, ?_⟩
  · simp only [integer_lub, bindR, hint]
    split_ifs <;> rfl
  · intro hlt
    simp only [integer_lub, bindR, hint]
    rw [if_pos hlt]
    rfl
  · intro hle hout
    simp only [integer_lub, bindR, hint]
    split_ifs with h1 h2 h3 <;> first | rfl | omega
  · intro hle hlb hub
    simp only [integer_lub, bindR, hint]
    split_ifs with h1 h2 h3 <;> first | rfl | omega
  · simp only [integer_lb, bindR, hint]
    split_ifs <;> rfl
  · simp only [integer_ub, bindR, hint]
    split_ifs <;> rfl

/-- Witness for C5: Scenario D — integers `[7]`, bounds `lb = 2`,
`ub = 5`: the integer cursor still advances by one and the call fails
with a range violation. -/
theorem integer_bounds_consume_first_witness :
    ((integer_lub (T := Int) 2 5) (Reader.mk [] [7] 0 0)).2
        = advanceI 1 (Reader.mk ([] : List Int) [7] 0 0) ∧
    ((integer_lub (T := Int) 2 5) (Reader.mk [] [7] 0 0)).1
        = Except.error Err.rangeViolation :=
  ⟨(integer_bounds_consume_first (Reader.mk ([] : List Int) [7] 0 0) 2 5
      (by decide)).1,
   (integer_bounds_consume_first (Reader.mk ([] : List Int) [7] 0 0) 2 5
      (by decide)).2.2.1 (by decide) (by decide)⟩

theorem bind_vector_state (s : Nat) (g : List T → α) (r : Reader T) :
    ((bindR (vector s) fun y => pureR (g y)) r).2 = advanceR s r := by
  simp only [bindR, vector_run, pureR]

theorem bind_vector_check_state (s : Nat) (chk : List T → Bool) (e : Err)
    (r : Reader T) :
    ((bindR (vector s) fun y =>
        if chk y then pureR y else throwR e) r).2 = advanceR s r := by
  simp only [bindR, vector_run]
  exact check_state _ _ _ _

theorem bind_matrix_check_state (n m : Nat) (chk : List (List T) → Bool)
    (e : Err) (r : Reader T) :
    ((bindR (matrix n m) fun y =>
        if chk y then pureR y else throwR e) r).2 = advanceR (n * m) r := by
  simp only [bindR, matrix_run]
  exact check_state _ _ _ _

/-- C2: each constrain-form accessor consumes exactly the unconstrained
length of the dimension table — a function of the requested dimensions
only, never of the data or of the external transform — and each plain
accessor consumes the full constrained size, whatever its external
validity check decides.  Consumption is the advance of the scalar
cursor. -/
theorem constrained_read_sizes :
    (∀ (tf : List T → List T) (k : Nat) (r : Reader T), 1 ≤ k →
      ((unit_vector_constrain tf k) r).2 = advanceR k r) ∧
    (∀ (tf : List T → List T) (k : Nat) (r : Reader T), 1 ≤ k →
      ((simplex_constrain tf k) r).2 = advanceR (k - 1) r) ∧
    (∀ (tf : List T → List T) (k : Nat) (r : Reader T),
      ((ordered_constrain tf k) r).2 = advanceR k r) ∧
    (∀ (tf : List T → List T) (k : Nat) (r : Reader T),
      ((positive_ordered_constrain tf k) r).2 = advanceR k r) ∧
    (∀ (tf : List T → List (List T)) (n m : Nat) (r : Reader T), m ≤ n →
      ((cholesky_factor_cov_constrain tf n m) r).2
        = advanceR (m * (m + 1) / 2 + (n - m) * m) r) ∧
    (∀ (tf : List T → List (List T)) (K : Nat) (r : Reader T),
      ((cholesky_factor_corr_constrain tf K) r).2
        = advanceR (K * (K - 1) / 2) r) ∧
    (∀ (tf : List T → List (List T)) (k : Nat) (r : Reader T),
      ((cov_matrix_constrain tf k) r).2
        = advanceR (k + k * (k - 1) / 2) r) ∧
    (∀ (tf : List T → List (List T)) (k : Nat) (r : Reader T),
      ((corr_matrix_constrain tf k) r).2 = advanceR (k * (k - 1) / 2) r) ∧
    (∀ (chk : List T → Bool) (k : Nat) (r : Reader T), 1 ≤ k →
      ((unit_vector chk k) r).2 = advanceR k r) ∧
    (∀ (chk : List T → Bool) (k : Nat) (r : Reader T), 1 ≤ k →
      ((simplex chk k) r).2 = advanceR k r) ∧
    (∀ (chk : List T → Bool) (k : Nat) (r : Reader T),
      ((ordered chk k) r).2 = advanceR k r) ∧
    (∀ (chk : List T → Bool) (k : Nat) (r : Reader T),
      ((positive_ordered chk k) r).2 = advanceR k r) ∧
    (∀ (chk : List (List T) → Bool) (n m : Nat) (r : Reader T),
      ((cholesky_factor_cov chk n m) r).2 = advanceR (n * m) r) ∧
    (∀ (chk : List (List T) → Bool) (K : Nat) (r : Reader T),
      ((cholesky_factor_corr chk K) r).2 = advanceR (K * K) r) ∧
    (∀ (chk : List (List T) → Bool) (k : Nat) (r : Reader T),
      ((cov_matrix chk k) r).2 = advanceR (k * k) r) ∧
    (∀ (chk : List (List T) → Bool) (k : Nat) (r : Reader T),
      ((corr_matrix chk k) r).2 = advanceR (k * k) r) := by
  refine ⟨?_, ?_, ?_, ?_, ?_, ?_, ?_, ?_, ?_, ?_, ?_, ?_, ?_, ?_, ?_, ?_⟩
  · intro tf k r hk
    simp only [unit_vector_constrain]
    rw [if_neg (by omega)]
    exact bind_vector_state k tf r
  · intro tf k r hk
    simp only [simplex_constrain]
    rw [if_neg (by omega)]
    exact bind_vector_state (k - 1) tf r
  · intro tf k r
    exact bind_vector_state k tf r
  · intro tf k r
    exact bind_vector_state k tf r
  · intro tf n m r hnm
    exact bind_vector_state _ tf r
  · intro tf K r
    exact bind_vector_state _ tf r
  · intro tf k r
    exact bind_vector_state _ tf r
  · intro tf k r
    exact bind_vector_state _ tf r
  · intro chk k r hk
    simp only [unit_vector]
    rw [if_neg (by omega)]
    exact bind_vector_check_state k chk _ r
  · intro chk k r hk
    simp only [simplex]
    rw [if_neg (by omega)]
    exact bind_vector_check_state k chk _ r
  · intro chk k r
    exact bind_vector_check_state k chk _ r
  · intro chk k r
    exact bind_vector_check_state k chk _ r
  · intro chk n m r
    exact bind_matrix_check_state n m chk _ r
  · intro chk K r
    exact bind_matrix_check_state K K chk _ r
  · intro chk k r
    exact bind_matrix_check_state k k chk _ r
  · intro chk k r
    exact bind_matrix_check_state k k chk _ r

/-- Witness for C2: Scenario C — `simplex_constrain(3)` on scalars
`[1, 2, 3]` consumes exactly 2 scalars (not 3), and
`cholesky_factor_cov_constrain(3, 2)` consumes `2*3/2 + 1*2 = 5`. -/
theorem constrained_read_sizes_witness :
    ((simplex_constrain (T := Int) id 3) (Reader.mk [1, 2, 3] [] 0 0)).2
        = advanceR (3 - 1) (Reader.mk ([1, 2, 3] : List Int) [] 0 0) ∧
    ((cholesky_factor_cov_constrain (T := Int) (fun _ => []) 3 2)
        (Reader.mk [1, 2, 3, 4, 5] [] 0 0)).2
      = advanceR (2 * (2 + 1) / 2 + (3 - 2) * 2)
          (Reader.mk ([1, 2, 3, 4, 5] : List Int) [] 0 0) :=
  ⟨(constrained_read_sizes.2.1) id 3 (Reader.mk [1, 2, 3] [] 0 0)
      (by decide),
   (constrained_read_sizes.2.2.2.2.1) (fun _ => []) 3 2
      (Reader.mk [1, 2, 3, 4, 5] [] 0 0) (by decide)⟩

theorem spEntry_cons (t : Triplet T) (l : List (Triplet T)) (i j : Nat) :
    spEntry (t :: l) i j
      = if t.row == i && t.col == j then t.value + spEntry l i j
        else spEntry l i j := by
  simp only [spEntry, List.filter_cons]
  split <;> simp

theorem spEntry_append (l1 l2 : List (Triplet T)) (i j : Nat) :
    spEntry (l1 ++ l2) i j = spEntry l1 i j + spEntry l2 i j := by
  simp [spEntry, List.filter_append]

theorem spEntry_replicate_default (k i j : Nat) :
    spEntry (List.replicate k (Triplet.mk 0 0 (0 : T))) i j = 0 := by
  induction k with
  | zero => rfl
  | succ k ih =>
    rw [List.replicate_succ, spEntry_cons]
    split <;> simp [ih]

/-- C7: `sparse_matrix(vec_r, vec_c, n, m)`, called with equal-length index
lists naming cells of the `n×m` matrix (caller's obligation), consumes
exactly `len(vec_r)` scalars — one per listed nonzero — and succeeds with
a triplet list whose assembled matrix agrees, entry by entry, with the
matrix built from the triplets `(vec_r[t], vec_c[t], t-th consumed
scalar)` in the sequence order of the index lists. -/
theorem sparse_matrix_triplet_assembly (r : Reader T) (vr vc : List Nat)
    (n m : Nat) (hlen : vr.length = vc.length)
    (hcoords : ∀ i, i < vr.length → vr.getD i 0 < n ∧ vc.getD i 0 < m) :
    ((sparse_matrix vr vc n m) r).2 = advanceR vr.length r ∧
    ∃ trips, ((sparse_matrix vr vc n m) r).1 = Except.ok trips ∧
      ∀ i j, spEntry trips i j
        = spEntry ((List.range vr.length).map fun t =>
            Triplet.mk (vr.getD t 0) (vc.getD t 0) (readR r (r.pos + t)))
            i j := by
  by_cases hg : m = 0 ∨ n = 0
  · have hvr : vr.length = 0 := by
      by_contra hne
      have h0 := hcoords 0 (by omega)
      omega
    constructor
    · simp only [sparse_matrix, if_pos hg]
      rw [hvr]
      rfl
    · refine ⟨[], by simp only [sparse_matrix, if_pos hg], ?_⟩
      intro i j
      rw [hvr]
      simp [spEntry]
  · have hsp : sparse_matrix vr vc n m r
        = (Except.ok (List.replicate vr.length (Triplet.mk 0 0 0) ++
            ((List.range vr.length).map fun t =>
              Triplet.mk (vr.getD t 0) (vc.getD t 0) (readR r (r.pos + t)))),
           advanceR vr.length r) := by
      simp only [sparse_matrix, if_neg hg, sparseLoop_ptr_run]
    refine ⟨by rw [hsp], _, by rw [hsp], ?_⟩
    intro i j
    rw [spEntry_append, spEntry_replicate_default, zero_add]

/-- Witness for C7: scalars `[10, 20]`, nonzeros at `(0,1)` and `(1,0)` of a
2×2 matrix: two scalars are consumed and the assembled entries match the
listed triplets. -/
theorem sparse_matrix_triplet_assembly_witness :
    ((sparse_matrix [0, 1] [1, 0] 2 2)
        (Reader.mk ([10, 20] : List Int) [] 0 0)).2
      = advanceR 2 (Reader.mk ([10, 20] : List Int) [] 0 0) ∧
    ∃ trips, ((sparse_matrix [0, 1] [1, 0] 2 2)
        (Reader.mk ([10, 20] : List Int) [] 0 0)).1 = Except.ok trips ∧
      ∀ i j, spEntry trips i j
        = spEntry ((List.range (List.length [0, 1])).map fun t =>
            Triplet.mk (List.getD [0, 1] t 0) (List.getD [1, 0] t 0)
              (readR (Reader.mk ([10, 20] : List Int) [] 0 0) (0 + t))) i j :=
  sparse_matrix_triplet_assembly (Reader.mk [10, 20] [] 0 0) [0, 1] [1, 0]
    2 2 (by decide) (by decide)

/-- C8 counter-evidence (code bug): with scalars `[3]`, offset 1 and
multiplier 2 on a 1×1 sparse matrix with one listed nonzero,
`sparse_matrix_offset_multiplier_constrain` stores the raw scalar 3 — its
loop calls the plain `scalar_offset_multiplier`, which applies no
transform — while the scalar-level
`scalar_offset_multiplier_constrain(1, 2)` on the same state produces
`1 + 2*3 = 7`, the value the documentation of the sparse overload
(`f(x) = mu + sigma * x`) promises.  The cursor still advances by 1. -/
theorem sparse_offset_multiplier_constrain_skips_transform :
    ((sparse_matrix_offset_multiplier_constrain (1 : Int) 2 [0] [0] 1 1)
        (Reader.mk [3] [] 0 0)).1
      = Except.ok [Triplet.mk 0 0 0, Triplet.mk 0 0 3] ∧
    spEntry [Triplet.mk 0 0 (0 : Int), Triplet.mk 0 0 3] 0 0 = 3 ∧
    ((scalar_offset_multiplier_constrain (1 : Int) 2)
        (Reader.mk [3] [] 0 0)).1 = Except.ok 7 ∧
    offset_multiplier_constrain (3 : Int) 1 2 = 7 ∧
    ((sparse_matrix_offset_multiplier_constrain (1 : Int) 2 [0] [0] 1 1)
        (Reader.mk [3] [] 0 0)).2
      = advanceR 1 (Reader.mk ([3] : List Int) [] 0 0) ∧
    (3 : Int) ≠ 7 := by
  refine ⟨rfl, rfl, rfl, rfl, rfl, by decide⟩

theorem mono_pureR (a : α) : CursorMono (pureR (T := T) a) :=
  fun _ => ⟨le_refl _, le_refl _⟩

theorem mono_throwR (e : Err) : CursorMono (throwR (T := T) (α := α) e) :=
  fun _ => ⟨le_refl _, le_refl _⟩

theorem mono_bindR {f : ReaderM T α} {g : α → ReaderM T β}
    (hf : CursorMono f) (hg : ∀ a, CursorMono (g a)) :
    CursorMono (bindR f g) := by
  intro r
  have h1 := hf r
  unfold bindR
  cases hfr : f r with
  | mk res r1 =>
    rw [hfr] at h1
    cases res with
    | ok a =>
      have h2 := hg a r1
      exact ⟨le_trans h1.1 h2.1, le_trans h1.2 h2.2⟩
    | error e => exact h1

theorem mono_ite (c : Prop) [Decidable c] (f g : ReaderM T α)
    (hf : CursorMono f) (hg : CursorMono g) :
    CursorMono (if c then f else g) := by
  by_cases h : c
  · rwa [if_pos h]
  · rwa [if_neg h]

theorem mono_scalar : CursorMono (T := T) scalar := by
  intro r
  unfold scalar
  split <;> simp [advanceR]

theorem mono_integer : CursorMono (T := T) integer := by
  intro r
  unfold integer
  split <;> simp [advanceI]

theorem mono_scalar_ptr_increment (m : Nat) :
    CursorMono (T := T) (scalar_ptr_increment m) := by
  intro r
  simp [scalar_ptr_increment, advanceR]

theorem mono_std_vector (m : Nat) : CursorMono (T := T) (std_vector m) := by
  intro r
  unfold std_vector
  split <;> simp [advanceR]

theorem mono_vector (m : Nat) : CursorMono (T := T) (vector m) := by
  intro r
  unfold vector
  split <;> simp [advanceR]

theorem mono_row_vector (m : Nat) : CursorMono (T := T) (row_vector m) := by
  intro r
  unfold row_vector
  split <;> simp [advanceR]

theorem mono_matrix (n m : Nat) : CursorMono (T := T) (matrix n m) := by
  intro r
  unfold matrix
  split <;> simp [advanceR]

theorem mono_sparseLoop {f : ReaderM T T} (hf : CursorMono f)
    (vr vc : List Nat) :
    ∀ is : List Nat, CursorMono (sparseLoop f vr vc is) := by
  intro is
  induction is with
  | nil => exact mono_pureR []
  | cons i is ih =>
    exact mono_bindR hf fun x => mono_bindR ih fun rest => mono_pureR _

theorem mono_sparse_wrap {g : ReaderM T (List (Triplet T))}
    (hg : CursorMono g) (k : Nat) :
    CursorMono (T := T) (fun r =>
      match g r with
      | (Except.ok l, r1) =>
          (Except.ok (List.replicate k (Triplet.mk 0 0 0) ++ l), r1)
      | (Except.error e, r1) => (Except.error e, r1)) := by
  intro r
  have h1 := hg r
  cases hgr : g r with
  | mk res r1 =>
    rw [hgr] at h1
    cases res <;> simp only [hgr] <;> exact h1

theorem mono_sparse_matrix (vr vc : List Nat) (n m : Nat) :
    CursorMono (T := T) (sparse_matrix vr vc n m) := by
  intro r
  unfold sparse_matrix
  by_cases hg : m = 0 ∨ n = 0
  · rw [if_pos hg]
    exact ⟨le_refl _, le_refl _⟩
  · rw [if_neg hg]
    exact mono_sparse_wrap
      (mono_sparseLoop (mono_scalar_ptr_increment 1) vr vc _) _ r

theorem mono_integer_lb (lb : Int) : CursorMono (T := T) (integer_lb lb) :=
  mono_bindR mono_integer fun i =>
    mono_ite _ _ _ (mono_pureR i) (mono_throwR _)

theorem mono_integer_ub (ub : Int) : CursorMono (T := T) (integer_ub ub) :=
  mono_bindR mono_integer fun i =>
    mono_ite _ _ _ (mono_pureR i) (mono_throwR _)

theorem mono_integer_lub (lb ub : Int) :
    CursorMono (T := T) (integer_lub lb ub) :=
  mono_bindR mono_integer fun i =>
    mono_ite _ _ _ (mono_throwR _)
      (mono_ite _ _ _ (mono_throwR _)
        (mono_ite _ _ _ (mono_throwR _) (mono_pureR i)))

theorem mono_scalar_check (chk : T → Bool) :
    CursorMono (bindR (T := T) scalar fun x =>
      if chk x then pureR x else throwR Err.validationError) :=
  mono_bindR mono_scalar fun x =>
    mono_ite _ _ _ (mono_pureR x) (mono_throwR _)

theorem mono_scalar_transform (tf : T → T) :
    CursorMono (bindR (T := T) scalar fun x => pureR (tf x)) :=
  mono_bindR mono_scalar fun x => mono_pureR (tf x)

theorem mono_vector_check (s : Nat) (chk : List T → Bool) :
    CursorMono (bindR (vector (T := T) s) fun y =>
      if chk y then pureR y else throwR Err.validationError) :=
  mono_bindR (mono_vector s) fun y =>
    mono_ite _ _ _ (mono_pureR y) (mono_throwR _)

theorem mono_vector_transform {γ : Type} (s : Nat) (tf : List T → γ) :
    CursorMono (bindR (vector (T := T) s) fun y => pureR (tf y)) :=
  mono_bindR (mono_vector s) fun y => mono_pureR (tf y)

theorem mono_matrix_check (n m : Nat) (chk : List (List T) → Bool) :
    CursorMono (bindR (matrix (T := T) n m) fun y =>
      if chk y then pureR y else throwR Err.validationError) :=
  mono_bindR (mono_matrix n m) fun y =>
    mono_ite _ _ _ (mono_pureR y) (mono_throwR _)

theorem mono_replicateR {f : ReaderM T T} (hf : CursorMono f) :
    ∀ k, CursorMono (replicateR f k) := by
  intro k
  induction k with
  | zero => exact mono_pureR []
  | succ k ih =>
    exact mono_bindR hf fun x => mono_bindR ih fun xs => mono_pureR _

theorem mono_matrixR {f : ReaderM T T} (hf : CursorMono f) (n : Nat) :
    ∀ m, CursorMono (matrixR f n m) := by
  intro m
  induction m with
  | zero => exact mono_pureR []
  | succ m ih =>
    exact mono_bindR (mono_replicateR hf n) fun c =>
      mono_bindR ih fun cs => mono_pureR _

theorem mono_sparse_lb (chk : T → Bool) (vr vc : List Nat) (n m : Nat) :
    CursorMono (T := T) (sparse_matrix_lb chk vr vc n m) := by
  intro r
  unfold sparse_matrix_lb
  by_cases hg : m = 0 ∨ n = 0
  · rw [if_pos hg]
    exact ⟨le_refl _, le_refl _⟩
  · rw [if_neg hg]
    exact mono_sparseLoop (mono_scalar_check chk) vr vc _ r

theorem mono_sparse_lb_constrain (tf : T → T) (vr vc : List Nat)
    (n m : Nat) :
    CursorMono (T := T) (sparse_matrix_lb_constrain tf vr vc n m) := by
  intro r
  unfold sparse_matrix_lb_constrain
  by_cases hg : m = 0 ∨ n = 0
  · rw [if_pos hg]
    exact ⟨le_refl _, le_refl _⟩
  · rw [if_neg hg]
    exact mono_sparse_wrap
      (mono_sparseLoop (mono_scalar_transform tf) vr vc _) _ r

theorem mono_sparse_om (offset multiplier : T) (vr vc : List Nat)
    (n m : Nat) :
    CursorMono (T := T)
      (sparse_matrix_offset_multiplier offset multiplier vr vc n m) := by
  intro r
  unfold sparse_matrix_offset_multiplier
  by_cases hg : m = 0 ∨ n = 0
  · rw [if_pos hg]
    exact ⟨le_refl _, le_refl _⟩
  · rw [if_neg hg]
    exact mono_sparse_wrap
      (mono_sparseLoop (mono_scalar_transform id) vr vc _) _ r

theorem mono_sparse_om_constrain (offset multiplier : T) (vr vc : List Nat)
    (n m : Nat) :
    CursorMono (T := T)
      (sparse_matrix_offset_multiplier_constrain offset multiplier
        vr vc n m) := by
  intro r
  unfold sparse_matrix_offset_multiplier_constrain
  by_cases hg : m = 0 ∨ n = 0
  · rw [if_pos hg]
    exact ⟨le_refl _, le_refl _⟩
  · rw [if_neg hg]
    exact mono_sparse_wrap
      (mono_sparseLoop (mono_scalar_transform id) vr vc _) _ r

/-- C9: both cursors are monotonically non-decreasing across every modelled
public operation of the reader, whether the call succeeds or fails: for
every operation (with any parameters, external checks and transforms) and
every starting state, the scalar cursor and the integer cursor of the
state after the call are at least their starting values. -/
theorem cursors_monotonic [Mul T] (op : Op T) (r : Reader T) :
    r.pos ≤ (runOp op r).pos ∧ r.int_pos ≤ (runOp op r).int_pos := by
  cases op with
  | scalar => exact mono_scalar r
  | scalar_constrain => exact mono_scalar r
  | integer => exact mono_integer r
  | integer_constrain => exact mono_integer r
  | std_vector m => exact mono_std_vector m r
  | vector m => exact mono_vector m r
  | vector_constrain m => exact mono_vector m r
  | row_vector m => exact mono_row_vector m r
  | row_vector_constrain m => exact mono_row_vector m r
  | matrix n m => exact mono_matrix n m r
  | matrix_constrain n m => exact mono_matrix n m r
  | sparse_matrix vr vc n m => exact mono_sparse_matrix vr vc n m r
  | sparse_matrix_constrain vr vc n m => exact mono_sparse_matrix vr vc n m r
  | integer_lb lb => exact mono_integer_lb lb r
  | integer_lb_constrain lb => exact mono_integer_lb lb r
  | integer_ub ub => exact mono_integer_ub ub r
  | integer_ub_constrain ub => exact mono_integer_ub ub r
  | integer_lub lb ub => exact mono_integer_lub lb ub r
  | integer_lub_constrain lb ub => exact mono_integer_lub lb ub r
  | scalar_pos chk => exact mono_scalar_check chk r
  | scalar_pos_constrain tf => exact mono_scalar_transform tf r
  | scalar_lb chk => exact mono_scalar_check chk r
  | scalar_lb_constrain tf => exact mono_scalar_transform tf r
  | scalar_ub chk => exact mono_scalar_check chk r
  | scalar_ub_constrain tf => exact mono_scalar_transform tf r
  | scalar_lub chk => exact mono_scalar_check chk r
  | scalar_lub_constrain tf => exact mono_scalar_transform tf r
  | prob chk => exact mono_scalar_check chk r
  | prob_constrain tf => exact mono_scalar_transform tf r
  | corr chk => exact mono_scalar_check chk r
  | corr_constrain tf => exact mono_scalar_transform tf r
  | scalar_offset_multiplier offset multiplier =>
      exact mono_scalar_transform id r
  | scalar_offset_multiplier_constrain offset multiplier =>
      exact mono_scalar_transform
        (fun x => offset_multiplier_constrain x offset multiplier) r
  | unit_vector chk k =>
      exact mono_ite (k = 0) _ _ (mono_throwR _) (mono_vector_check k chk) r
  | unit_vector_constrain tf k =>
      exact mono_ite (k = 0) _ _ (mono_throwR _) (mono_vector_transform k tf) r
  | simplex chk k =>
      exact mono_ite (k = 0) _ _ (mono_throwR _) (mono_vector_check k chk) r
  | simplex_constrain tf k =>
      exact mono_ite (k = 0) _ _ (mono_throwR _)
        (mono_vector_transform (k - 1) tf) r
  | ordered chk k => exact mono_vector_check k chk r
  | ordered_constrain tf k => exact mono_vector_transform k tf r
  | positive_ordered chk k => exact mono_vector_check k chk r
  | positive_ordered_constrain tf k => exact mono_vector_transform k tf r
  | cholesky_factor_cov chk n m => exact mono_matrix_check n m chk r
  | cholesky_factor_cov_constrain tf n m =>
      exact mono_vector_transform _ tf r
  | cholesky_factor_corr chk K => exact mono_matrix_check K K chk r
  | cholesky_factor_corr_constrain tf K =>
      exact mono_vector_transform _ tf r
  | cov_matrix chk k => exact mono_matrix_check k k chk r
  | cov_matrix_constrain tf k => exact mono_vector_transform _ tf r
  | corr_matrix chk k => exact mono_matrix_check k k chk r
  | corr_matrix_constrain tf k => exact mono_vector_transform _ tf r
  | vector_lb chk m => exact mono_replicateR (mono_scalar_check chk) m r
  | vector_lb_constrain tf m =>
      exact mono_replicateR (mono_scalar_transform tf) m r
  | row_vector_lb chk m => exact mono_replicateR (mono_scalar_check chk) m r
  | matrix_lb chk n m => exact mono_matrixR (mono_scalar_check chk) n m r
  | matrix_lb_constrain tf n m =>
      exact mono_matrixR (mono_scalar_transform tf) n m r
  | matrix_offset_multiplier_constrain offset multiplier n m =>
      exact mono_matrixR
        (mono_scalar_transform
          (fun x => offset_multiplier_constrain x offset multiplier)) n m r
  | sparse_matrix_lb chk vr vc n m => exact mono_sparse_lb chk vr vc n m r
  | sparse_matrix_lb_constrain tf vr vc n m =>
      exact mono_sparse_lb_constrain tf vr vc n m r
  | sparse_matrix_offset_multiplier offset multiplier vr vc n m =>
      exact mono_sparse_om offset multiplier vr vc n m r
  | sparse_matrix_offset_multiplier_constrain offset multiplier vr vc n m =>
      exact mono_sparse_om_constrain offset multiplier vr vc n m r

end StanIO
